import Mathlib

/-!
Shallow embedding of the change-triggered alerting and deduplication engine of
the builder-agent repository, and verification of its specification.

Part 1 embeds `src/error-monitor.js` (Event Store, Window Aggregator, Alert
Gate).  Part 2 embeds the daemon `src/daemon.js` (Target State Tracker and
Poll Cycle Orchestrator).  Machine integers are modelled as `Nat`; timestamps
are milliseconds since the epoch (the JS code stores ISO strings and compares
them through `new Date(...).getTime()`, which is exactly this number).
Persisted JSON files are modelled by `FileState`: a file is missing, present
but unparseable, or present with a parsed value.
-/

/-- State of one persisted JSON file: missing, present but failing
`JSON.parse`, or present with parsed contents. -/
inductive FileState (α : Type) where
  | missing
  | unreadable
  | stored (value : α)
deriving DecidableEq

/-- Parsed contents of `data/error-config.json`: any subset of the recognized
options may be present; absent fields fall back to the defaults
(`{ ...defaults, ...JSON.parse(file) }` in `loadErrorConfig`). -/
structure ErrorConfigPartial where
  sources : Option (List String)
  alertThreshold : Option Nat
  windowMinutes : Option Nat
  silenceMinutes : Option Nat
  severityFilter : Option (List String)
  slackWebhook : Option (Option String)
  emailRecipients : Option (List String)
deriving DecidableEq

/-- The effective error-monitor configuration (`loadErrorConfig`'s result). -/
structure ErrorConfig where
  sources : List String
  alertThreshold : Nat
  windowMinutes : Nat
  silenceMinutes : Nat
  severityFilter : List String
  slackWebhook : Option String
  emailRecipients : List String
deriving DecidableEq

/-- The `defaults` object of `loadErrorConfig` in `src/error-monitor.js`. -/
def defaultErrorConfig : ErrorConfig :=
  { sources := []
    alertThreshold := 10
    windowMinutes := 60
    silenceMinutes := 15
    severityFilter := ["error", "critical"]
    slackWebhook := none
    emailRecipients := [] }

/-- `{ ...defaults, ...parsed }`: every field present in the parsed file
overrides the default. -/
def mergeConfig (p : ErrorConfigPartial) : ErrorConfig :=
  { sources := p.sources.getD defaultErrorConfig.sources
    alertThreshold := p.alertThreshold.getD defaultErrorConfig.alertThreshold
    windowMinutes := p.windowMinutes.getD defaultErrorConfig.windowMinutes
    silenceMinutes := p.silenceMinutes.getD defaultErrorConfig.silenceMinutes
    severityFilter := p.severityFilter.getD defaultErrorConfig.severityFilter
    slackWebhook := p.slackWebhook.getD defaultErrorConfig.slackWebhook
    emailRecipients := p.emailRecipients.getD defaultErrorConfig.emailRecipients }

/-- `loadErrorConfig`: returns defaults when the config file is missing, and
also when reading or parsing it throws (the `catch` falls through to
`return defaults`); otherwise merges the parsed file over the defaults. -/
def loadErrorConfig : FileState ErrorConfigPartial → ErrorConfig
  | .missing => defaultErrorConfig
  | .unreadable => defaultErrorConfig
  | .stored p => mergeConfig p

/-- One stored event of the error log (an `entry` built by `logError`). -/
structure ErrorEntry where
  id : String
  timestamp : Nat
  severity : String
  source : String
  message : String
  stack : Option String
  context : List (String × String)
  fingerprint : String
  acknowledged : Bool
  acknowledgedAt : Option Nat
deriving DecidableEq

/-- The argument object passed to `logError`.  A JS field that is `undefined`
or the empty string is falsy; absence of `severity`/`source` is modelled by
the empty string, which `logError` replaces by its default. -/
structure ErrorInput where
  severity : String
  source : String
  message : String
  stack : Option String
  context : List (String × String)
deriving DecidableEq

/-- JS `a || b` on strings: the empty string is falsy. -/
def jsOrString (a b : String) : String := if a = "" then b else a

/-- UTF-8 encoding of one character (what `Buffer.from(string)` produces,
byte by byte, as natural numbers below 256). -/
def utf8Bytes (c : Char) : List Nat :=
  let n := c.toNat
  if n < 0x80 then [n]
  else if n < 0x800 then [0xC0 + n / 0x40, 0x80 + n % 0x40]
  else if n < 0x10000 then
    [0xE0 + n / 0x1000, 0x80 + (n / 0x40) % 0x40, 0x80 + n % 0x40]
  else
    [0xF0 + n / 0x40000, 0x80 + (n / 0x1000) % 0x40,
     0x80 + (n / 0x40) % 0x40, 0x80 + n % 0x40]

/-- UTF-8 bytes of a string. -/
def strBytes (s : String) : List Nat :=
  s.data.foldr (fun c acc => utf8Bytes c ++ acc) []

/-- The base64 alphabet, indexed 0..63. -/
def base64Char (n : Nat) : Char :=
  "ABCDEFGHIJKLMNOPQRSTUVWXYZabcdefghijklmnopqrstuvwxyz0123456789+/".toList.getD n 'A'

/-- Standard base64 of a byte list (`Buffer.toString('base64')`), with `=`
padding. -/
def base64Encode : List Nat → List Char
  | [] => []
  | [a] => [base64Char (a / 4), base64Char (a % 4 * 16), '=', '=']
  | [a, b] =>
      [base64Char (a / 4), base64Char (a % 4 * 16 + b / 16),
       base64Char (b % 16 * 4), '=']
  | a :: b :: c :: rest =>
      base64Char (a / 4) :: base64Char (a % 4 * 16 + b / 16) ::
      base64Char (b % 16 * 4 + c / 64) :: base64Char (c % 64) ::
      base64Encode rest

/-- `generateFingerprint`: base64 of `source + "|" + message[:100] + "|" +
severity` (each falling back to the empty string), truncated to 16
characters.  Note it reads the raw input fields, not the defaulted ones
`logError` stores on the entry. -/
def generateFingerprint (e : ErrorInput) : String :=
  let parts := e.source ++ "|" ++ e.message.take 100 ++ "|" ++ e.severity
  ((base64Encode (strBytes parts)).take 16).asString

/-- `loadErrors`: the error log, or `[]` when the file is missing or
reading/parsing throws. -/
def loadErrors : FileState (List ErrorEntry) → List ErrorEntry
  | .missing => []
  | .unreadable => []
  | .stored l => l

/-- `saveErrors` keeps the last 1000 errors: `errors.slice(-1000)`. -/
def saveErrors (errors : List ErrorEntry) : List ErrorEntry :=
  errors.drop (errors.length - 1000)

/-- The alert-record mapping of `data/error-alerts.json`: fingerprint to
timestamp of the last fired alert, as a JS object (association list in key
insertion order, at most one entry per key). -/
def AlertMap : Type := List (String × Nat)

instance : DecidableEq AlertMap := inferInstanceAs (DecidableEq (List (String × Nat)))

/-- The alerts object that `recordAlert` starts from: parsed file contents,
or `{}` when the file is missing or unreadable. -/
def loadAlertsRaw : FileState AlertMap → AlertMap
  | .missing => []
  | .unreadable => []
  | .stored m => m

/-- `alerts[fingerprint] = timestamp` on a JS object: an existing key keeps
its position, a new key is appended. -/
def setAlert (m : AlertMap) (fp : String) (t : Nat) : AlertMap :=
  match m with
  | [] => [(fp, t)]
  | (k, v) :: rest =>
      if k = fp then (k, t) :: rest else (k, v) :: setAlert rest fp t

/-- `getLastAlert`: the recorded last-alert timestamp for a fingerprint;
`null`/`undefined` (here `none`) when the alerts file is missing or
unreadable or holds no entry for the fingerprint. -/
def getLastAlert (alertsFile : FileState AlertMap) (fingerprint : String) : Option Nat :=
  match alertsFile with
  | .missing => none
  | .unreadable => none
  | .stored m => m.lookup fingerprint

/-- The persisted state of the error monitor.  The module keeps no mutable
in-memory state: every operation re-reads these files. -/
structure MonitorFiles where
  errorsFile : FileState (List ErrorEntry)
  alertsFile : FileState AlertMap
  configFile : FileState ErrorConfigPartial
deriving DecidableEq

/-- `recordAlert`: re-reads the alerts file (falling back to `{}`), sets the
fingerprint's timestamp to now, and writes the file back. -/
def recordAlert (files : MonitorFiles) (fp : String) (now : Nat) : MonitorFiles :=
  { files with alertsFile := .stored (setAlert (loadAlertsRaw files.alertsFile) fp now) }

/-- The distinct fingerprints of a list of errors in first-occurrence order:
the iteration order of the `byFingerprint` grouping object in
`triggerAlert`. -/
def dedupFingerprints (errors : List ErrorEntry) : List String :=
  errors.foldl (fun acc e => if acc.contains e.fingerprint then acc else acc ++ [e.fingerprint]) []

/-- `triggerAlert`: announces one alert line per fingerprint group among the
window's errors and calls `recordAlert` for each such fingerprint.  Returns
the updated files and the list of fingerprints an alert was fired for. -/
def triggerAlert (errors : List ErrorEntry) (files : MonitorFiles) (now : Nat) :
    MonitorFiles × List String :=
  let fps := dedupFingerprints errors
  (fps.foldl (fun fs fp => recordAlert fs fp now) files, fps)

/-- `checkAlertThreshold`: filters the stored errors to those inside the
trailing window whose severity passes the filter; when their total number
reaches `alertThreshold` and the triggering error's fingerprint is outside
its silence period (or has no record), fires `triggerAlert` on the whole
filtered slice.  Returns the files and the fired fingerprints. -/
def checkAlertThreshold (files : MonitorFiles) (newError : ErrorEntry) (now : Nat) :
    MonitorFiles × List String :=
  let config := loadErrorConfig files.configFile
  let errors := loadErrors files.errorsFile
  let windowStart := now - config.windowMinutes * 60 * 1000
  let recentErrors := errors.filter fun e =>
    decide (windowStart ≤ e.timestamp) && config.severityFilter.contains e.severity
  if config.alertThreshold ≤ recentErrors.length then
    match getLastAlert files.alertsFile newError.fingerprint with
    | none => triggerAlert recentErrors files now
    | some t =>
        if config.silenceMinutes * 60 * 1000 < now - t then
          triggerAlert recentErrors files now
        else (files, [])
  else (files, [])

/-- The entry `logError` builds: id and timestamp assigned, severity and
source defaulted when falsy, fingerprint derived from the raw input. -/
def mkEntry (err : ErrorInput) (now : Nat) (idStr : String) : ErrorEntry :=
  { id := idStr
    timestamp := now
    severity := jsOrString err.severity "error"
    source := jsOrString err.source "unknown"
    message := err.message
    stack := err.stack
    context := err.context
    fingerprint := generateFingerprint err
    acknowledged := false
    acknowledgedAt := none }

/-- `logError`: loads the log, appends the new entry, persists the trimmed
log, then runs `checkAlertThreshold` on the new entry (which re-reads the
just-saved file).  Returns the files, the stored entry and the fingerprints
alerts were fired for. -/
def logError (files : MonitorFiles) (err : ErrorInput) (now : Nat) (idStr : String) :
    MonitorFiles × ErrorEntry × List String :=
  let errors := loadErrors files.errorsFile
  let entry := mkEntry err now idStr
  let files1 := { files with errorsFile := .stored (saveErrors (errors ++ [entry])) }
  let (files2, fired) := checkAlertThreshold files1 entry now
  (files2, entry, fired)

/-- Acknowledging mutates the first entry whose id matches, in place. -/
def ackFirst (l : List ErrorEntry) (errorId : String) (now : Nat) : List ErrorEntry :=
  match l with
  | [] => []
  | e :: rest =>
      if e.id = errorId then
        { e with acknowledged := true, acknowledgedAt := some now } :: rest
      else e :: ackFirst rest errorId now

/-- `acknowledgeError`: finds the event by id; when found, sets its
acknowledgment fields and persists the log, returning the updated event;
otherwise returns `null` without writing. -/
def acknowledgeError (files : MonitorFiles) (errorId : String) (now : Nat) :
    MonitorFiles × Option ErrorEntry :=
  let errors := loadErrors files.errorsFile
  match errors.find? (fun e => e.id = errorId) with
  | none => (files, none)
  | some e =>
      ({ files with errorsFile := .stored (saveErrors (ackFirst errors errorId now)) },
       some { e with acknowledged := true, acknowledgedAt := some now })

/-- `bySeverity[k] = (bySeverity[k] || 0) + 1` on a JS object: bump the
count of a key, keeping insertion order; a new key is appended with count
1. -/
def bumpCount (m : List (String × Nat)) (k : String) : List (String × Nat) :=
  match m with
  | [] => [(k, 1)]
  | (k', n) :: rest =>
      if k' = k then (k', n + 1) :: rest else (k', n) :: bumpCount rest k

/-- The per-fingerprint counts of a list of events, keys in order of first
occurrence (JS object key insertion order). -/
def fingerprintCounts (es : List ErrorEntry) : List (String × Nat) :=
  es.foldl (fun acc e => bumpCount acc e.fingerprint) []

/-- The per-severity counts, keys in order of first occurrence. -/
def severityCounts (es : List ErrorEntry) : List (String × Nat) :=
  es.foldl (fun acc e => bumpCount acc e.severity) []

/-- The per-source counts, keys in order of first occurrence. -/
def sourceCounts (es : List ErrorEntry) : List (String × Nat) :=
  es.foldl (fun acc e => bumpCount acc e.source) []

/-- Insert into a count-descending list, before the first element whose
count is not larger; combined with `sortByCountDesc` this reproduces the
stable `Array.prototype.sort((a, b) => b[1] - a[1])` of `getErrorSummary`
(JS sort is stable, so entries with equal counts keep their relative
order). -/
def insertByCountDesc (x : String × Nat) : List (String × Nat) → List (String × Nat)
  | [] => [x]
  | y :: l => if y.2 ≤ x.2 then x :: y :: l else y :: insertByCountDesc x l

/-- Stable sort by count, descending: the element taken from the front is
placed before any equal-count element of the already-sorted rest. -/
def sortByCountDesc : List (String × Nat) → List (String × Nat)
  | [] => []
  | x :: xs => insertByCountDesc x (sortByCountDesc xs)

/-- One element of `topErrors`: fingerprint, its count, and the first
matching event of the filtered slice (`filtered.find(...)`). -/
structure TopError where
  fingerprint : String
  count : Nat
  sample : Option ErrorEntry
deriving DecidableEq

/-- The summary object returned by `getErrorSummary`. -/
structure ErrorSummary where
  totalErrors : Nat
  periodHours : Nat
  periodFrom : Nat
  bySeverity : List (String × Nat)
  bySource : List (String × Nat)
  topErrors : List TopError
  timestamp : Nat
deriving DecidableEq

/-- The filter chain of `getErrorSummary`: events of the last `hours`
hours, optionally restricted to one severity and one source. -/
def summaryFiltered (errors : List ErrorEntry) (now : Nat) (hours : Nat)
    (severity : Option String) (source : Option String) : List ErrorEntry :=
  let cutoff := now - hours * 60 * 60 * 1000
  let filtered0 := errors.filter fun e => decide (cutoff ≤ e.timestamp)
  let filtered1 :=
    match severity with
    | none => filtered0
    | some sev => filtered0.filter fun e => e.severity = sev
  match source with
  | none => filtered1
  | some src => filtered1.filter fun e => e.source = src

/-- `getErrorSummary`: filters the log to the last `hours` hours and the
optional severity/source, tallies by severity, source and fingerprint, and
lists the five most frequent fingerprints (count-descending, stable). -/
def getErrorSummary (errors : List ErrorEntry) (now : Nat) (hours : Nat)
    (severity : Option String) (source : Option String) : ErrorSummary :=
  let cutoff := now - hours * 60 * 60 * 1000
  let filtered := summaryFiltered errors now hours severity source
  let byFingerprint := fingerprintCounts filtered
  let topErrors := ((sortByCountDesc byFingerprint).take 5).map fun p =>
    { fingerprint := p.1
      count := p.2
      sample := filtered.find? fun e => e.fingerprint = p.1 }
  { totalErrors := filtered.length
    periodHours := hours
    periodFrom := cutoff
    bySeverity := severityCounts filtered
    bySource := sourceCounts filtered
    topErrors := topErrors
    timestamp := now }

/-!
Part 2: the daemon (`src/daemon.js`), embedding `checkRepo` and `runCheck`.
External fetches (`getRepoStatus`, `getFailedBuildDetails`,
`scanDependencies`, `isReleaseNeeded`) and the outcome of
`createDependencyUpdatePR` / `notifyDependencyUpdate` are inputs to one
poll of one repository.  `getRepoStatus` may throw (modelled by `none`),
which the surrounding `catch` turns into a failed check that leaves the
stored state untouched.
-/

/-- The per-repository entry of the daemon's `repoState` map.  A fresh JS
object `{}` has every field `undefined`: `none` / `false` here. -/
structure RepoStateEntry where
  failedBuilds : Option Nat
  pendingDepsPR : Option Nat
  releaseNotified : Bool
  lastCheck : Option Nat
deriving DecidableEq

/-- `prevState` when the map holds no entry: `repoState.get(...) || {}`. -/
def emptyRepoState : RepoStateEntry :=
  { failedBuilds := none, pendingDepsPR := none, releaseNotified := false, lastCheck := none }

/-- JS truthiness of `prevState.pendingDepsPR` (a number or undefined):
`0`, `null` and `undefined` are falsy. -/
def jsTruthyNum : Option Nat → Bool
  | none => false
  | some n => n != 0

/-- One auto-updatable dependency as reported by `scanDependencies`
(`deps.autoUpdates` elements; only the fields `checkRepo` reads). -/
structure DepUpdate where
  name : String
  updateType : String
deriving DecidableEq

/-- Result of `getRepoStatus` (the fields `checkRepo` reads). -/
structure RepoSnapshot where
  failedBuilds : Nat
deriving DecidableEq

/-- Outcome of the dependency-PR attempt inside `checkRepo`:
`createDependencyUpdatePR` returned a PR whose notification dispatch then
succeeded or threw, returned `null`, or threw itself.  A thrown error (from
creation or notification) is caught by the inner `catch`, which only logs
"PR creation skipped". -/
inductive PrOutcome where
  | opened (number : Nat) (notifyOk : Bool)
  | returnedNull
  | threw
deriving DecidableEq

/-- The external observations one `checkRepo` call consumes.  `status` is
`none` when `getRepoStatus` throws. -/
structure RepoFetch where
  status : Option RepoSnapshot
  failures : List String
  deps : List DepUpdate
  prOutcome : PrOutcome
  releaseNeeded : Bool
deriving DecidableEq

/-- The daemon configuration `checkRepo` reads
(`config.deps.autoUpdate.minor` / `.patch`). -/
structure DaemonConfig where
  autoUpdateMinor : Bool
  autoUpdatePatch : Bool
deriving DecidableEq

/-- The condition kinds a poll can newly report. -/
inductive Cond where
  | buildFailure
  | depsPR
  | release
deriving DecidableEq

/-- Result of one `checkRepo` call: the map entry afterwards (`none` when
the repo still has no entry), whether the check succeeded, the newly
reported conditions, and the number of the PR opened by this call, if
any. -/
structure CheckOutput where
  state : Option RepoStateEntry
  success : Bool
  conds : List Cond
  openedPR : Option Nat
deriving DecidableEq

/-- The dependency block of `checkRepo` (`src/daemon.js` lines 74-102):
gated on every 4th check, nonempty auto-updates and the configured update
types; a PR is attempted only when eligible updates exist and
`prevState.pendingDepsPR` is falsy.  `pendingDepsPR` is assigned only after
`createDependencyUpdatePR` returned a PR *and* `notifyDependencyUpdate`
returned without throwing; any throw lands in the inner `catch`.  Returns
the pending-PR field afterwards, the PR number this block opened (if
`createDependencyUpdatePR` returned one), and the conditions reported. -/
def depsStep (cfg : DaemonConfig) (checkCount : Nat) (prevState : RepoStateEntry)
    (fetch : RepoFetch) : Option Nat × Option Nat × List Cond :=
  if checkCount % 4 == 0 && decide (0 < fetch.deps.length) then
    if cfg.autoUpdateMinor || cfg.autoUpdatePatch then
      let autoUpdates := fetch.deps.filter fun u =>
        (u.updateType == "minor" && cfg.autoUpdateMinor) ||
        (u.updateType == "patch" && cfg.autoUpdatePatch)
      if decide (0 < autoUpdates.length) && !jsTruthyNum prevState.pendingDepsPR then
        match fetch.prOutcome with
        | .opened n true => (some n, some n, [Cond.depsPR])
        | .opened n false => (prevState.pendingDepsPR, some n, [])
        | .returnedNull => (prevState.pendingDepsPR, none, [])
        | .threw => (prevState.pendingDepsPR, none, [])
      else (prevState.pendingDepsPR, none, [])
    else (prevState.pendingDepsPR, none, [])
  else (prevState.pendingDepsPR, none, [])

/-- The release block of `checkRepo` (`src/daemon.js` lines 104-109):
reports once and sets the sticky `releaseNotified` flag. -/
def releaseStep (prevState : RepoStateEntry) (fetch : RepoFetch) : Bool × List Cond :=
  if fetch.releaseNeeded && !prevState.releaseNotified then (true, [Cond.release])
  else (prevState.releaseNotified, [])

/-- `checkRepo`: one poll of one repository.  Mirrors `src/daemon.js` lines
55-123: build-failure branch, dependency branch, release branch, then
`repoState.set` with the current failure count.  When `getRepoStatus`
throws, the `catch` reports failure and the stored entry is left as it
was. -/
def checkRepo (cfg : DaemonConfig) (checkCount : Nat) (prev : Option RepoStateEntry)
    (fetch : RepoFetch) (now : Nat) : CheckOutput :=
  let prevState := prev.getD emptyRepoState
  match fetch.status with
  | none => { state := prev, success := false, conds := [], openedPR := none }
  | some status =>
      let buildNew : Bool :=
        decide (0 < status.failedBuilds) && decide (some status.failedBuilds ≠ prevState.failedBuilds)
      let conds1 := if buildNew then [Cond.buildFailure] else []
      let depsResult := depsStep cfg checkCount prevState fetch
      let relPair := releaseStep prevState fetch
      let newState : RepoStateEntry :=
        { failedBuilds := some status.failedBuilds
          pendingDepsPR := depsResult.1
          releaseNotified := relPair.1
          lastCheck := some now }
      { state := some newState
        success := true
        conds := conds1 ++ depsResult.2.2 ++ relPair.2
        openedPR := depsResult.2.1 }

/-- The daemon's in-memory state: the re-entrancy flag, the cycle counter
and the per-repository map (`isRunning`, `checkCount`, `repoState` in
`src/daemon.js`).  None of it is written to disk. -/
structure DaemonState where
  isRunning : Bool
  checkCount : Nat
  repoState : List (String × RepoStateEntry)
deriving DecidableEq

/-- The daemon's state at process start: `isRunning = false`,
`checkCount = 0`, `repoState = new Map()`. -/
def initDaemonState : DaemonState :=
  { isRunning := false, checkCount := 0, repoState := [] }

/-- `Map.set`: replace the entry for a key or append it. -/
def mapSet (m : List (String × RepoStateEntry)) (k : String) (v : RepoStateEntry) :
    List (String × RepoStateEntry) :=
  match m with
  | [] => [(k, v)]
  | (k', v') :: rest =>
      if k' = k then (k', v) :: rest else (k', v') :: mapSet rest k v

/-- `runCheck`: one scheduled tick.  When a cycle is already running it
returns at once, doing no per-target work; otherwise it sets the flag,
increments the cycle counter, polls every target in order and clears the
flag at the end.  `checkRepo` catches all of its own errors, so the body
has a single exit.  Returns the new daemon state and the per-repo
results. -/
def runCheck (cfg : DaemonConfig) (targets : List String) (fetches : String → RepoFetch)
    (now : Nat) (s : DaemonState) : DaemonState × List (String × CheckOutput) :=
  if s.isRunning then (s, [])
  else
    let cc := s.checkCount + 1
    let step := fun (acc : List (String × RepoStateEntry) × List (String × CheckOutput)) name =>
      let out := checkRepo cfg cc (acc.1.lookup name) (fetches name) now
      (match out.state with
       | some e => mapSet acc.1 name e
       | none => acc.1,
       acc.2 ++ [(name, out)])
    let res := targets.foldl step (s.repoState, [])
    ({ isRunning := false, checkCount := cc, repoState := res.1 }, res.2)

/-- Modelled restart of the daemon process: `src/daemon.js` persists none
of its state (`repoState` is a module-local `Map`, `checkCount` and
`isRunning` are module-local variables), so a freshly started process
begins from `initDaemonState` whatever the previous process held. -/
def daemonRestart (_ : DaemonState) : DaemonState := initDaemonState

/-- Modelled restart of the error monitor: every operation of
`src/error-monitor.js` re-reads its three data files and the module keeps
no other state, so a restart preserves exactly the files. -/
def monitorRestart (files : MonitorFiles) : MonitorFiles := files

/-!
Helper lemmas about the embedded operations.
-/

theorem recordAlert_errorsFile (files : MonitorFiles) (fp : String) (now : Nat) :
    (recordAlert files fp now).errorsFile = files.errorsFile := rfl

theorem foldl_recordAlert_errorsFile (fps : List String) (files : MonitorFiles) (now : Nat) :
    (fps.foldl (fun fs fp => recordAlert fs fp now) files).errorsFile = files.errorsFile := by
  induction fps generalizing files with
  | nil => rfl
  | cons fp fps ih => simpa [List.foldl_cons] using ih (recordAlert files fp now)

theorem triggerAlert_errorsFile (errors : List ErrorEntry) (files : MonitorFiles) (now : Nat) :
    (triggerAlert errors files now).1.errorsFile = files.errorsFile := by
  simp [triggerAlert, foldl_recordAlert_errorsFile]

theorem checkAlertThreshold_errorsFile (files : MonitorFiles) (e : ErrorEntry) (now : Nat) :
    (checkAlertThreshold files e now).1.errorsFile = files.errorsFile := by
  unfold checkAlertThreshold
  dsimp only
  repeat' split
  all_goals first | exact triggerAlert_errorsFile .. | rfl

theorem ackFirst_length (l : List ErrorEntry) (errorId : String) (now : Nat) :
    (ackFirst l errorId now).length = l.length := by
  induction l with
  | nil => rfl
  | cons e rest ih =>
    unfold ackFirst
    split <;> simp [ih]

theorem mem_dedupFingerprints_aux (F : String) (l : List ErrorEntry) :
    ∀ acc : List String,
      (F ∈ l.foldl (fun acc e => if acc.contains e.fingerprint then acc else acc ++ [e.fingerprint]) acc ↔
        F ∈ acc ∨ F ∈ l.map (·.fingerprint)) := by
  induction l with
  | nil => intro acc; simp
  | cons e rest ih =>
    intro acc
    rw [List.foldl_cons, ih]
    by_cases h : acc.contains e.fingerprint
    · have hmem : e.fingerprint ∈ acc := by simpa using h
      simp only [h, if_pos, List.map_cons, List.mem_cons]
      constructor
      · rintro (ha | hr)
        · exact Or.inl ha
        · exact Or.inr (Or.inr hr)
      · rintro (ha | heq | hr)
        · exact Or.inl ha
        · exact Or.inl (heq ▸ hmem)
        · exact Or.inr hr
    · have h' : acc.contains e.fingerprint = false := by simpa using h
      simp only [h', List.map_cons, List.mem_cons, List.mem_append, List.mem_singleton,
        Bool.false_eq_true, if_false]
      tauto

theorem mem_dedupFingerprints (F : String) (l : List ErrorEntry) :
    F ∈ dedupFingerprints l ↔ F ∈ l.map (·.fingerprint) := by
  unfold dedupFingerprints
  simpa using mem_dedupFingerprints_aux F l []

theorem depsStep_conds_eq (cfg : DaemonConfig) (cc : Nat) (st : RepoStateEntry)
    (fetch : RepoFetch) :
    (depsStep cfg cc st fetch).2.2 = [] ∨ (depsStep cfg cc st fetch).2.2 = [Cond.depsPR] := by
  unfold depsStep
  dsimp only
  repeat' split
  all_goals simp

theorem releaseStep_conds_eq (st : RepoStateEntry) (fetch : RepoFetch) :
    (releaseStep st fetch).2 = [] ∨ (releaseStep st fetch).2 = [Cond.release] := by
  unfold releaseStep
  split <;> simp

theorem depsStep_of_truthy (cfg : DaemonConfig) (cc : Nat) (st : RepoStateEntry)
    (fetch : RepoFetch) (h : jsTruthyNum st.pendingDepsPR = true) :
    depsStep cfg cc st fetch = (st.pendingDepsPR, none, []) := by
  unfold depsStep
  dsimp only
  repeat' split
  all_goals simp_all

theorem depsStep_of_no_deps (cfg : DaemonConfig) (cc : Nat) (st : RepoStateEntry)
    (fetch : RepoFetch) (h : fetch.deps = []) :
    depsStep cfg cc st fetch = (st.pendingDepsPR, none, []) := by
  unfold depsStep
  simp [h]

theorem depsStep_cases (cfg : DaemonConfig) (cc : Nat) (st : RepoStateEntry)
    (fetch : RepoFetch) :
    depsStep cfg cc st fetch = (st.pendingDepsPR, none, []) ∨
    (∃ n, fetch.prOutcome = .opened n true ∧
      depsStep cfg cc st fetch = (some n, some n, [Cond.depsPR])) ∨
    (∃ n, fetch.prOutcome = .opened n false ∧
      depsStep cfg cc st fetch = (st.pendingDepsPR, some n, [])) := by
  unfold depsStep
  dsimp only
  repeat' split
  · rename_i n heq
    exact Or.inr (Or.inl ⟨n, heq, rfl⟩)
  · rename_i n heq
    exact Or.inr (Or.inr ⟨n, heq, rfl⟩)
  all_goals exact Or.inl rfl

theorem mem_insertByCountDesc (a x : String × Nat) (l : List (String × Nat)) :
    a ∈ insertByCountDesc x l ↔ a = x ∨ a ∈ l := by
  induction l with
  | nil => simp [insertByCountDesc]
  | cons y l ih =>
    unfold insertByCountDesc
    split
    · simp [List.mem_cons]
    · rw [List.mem_cons, ih, List.mem_cons]
      tauto

theorem pairwise_insertByCountDesc (x : String × Nat) (l : List (String × Nat))
    (h : List.Pairwise (fun a b => b.2 ≤ a.2) l) :
    List.Pairwise (fun a b => b.2 ≤ a.2) (insertByCountDesc x l) := by
  induction l with
  | nil => simp [insertByCountDesc]
  | cons y l ih =>
    rw [List.pairwise_cons] at h
    unfold insertByCountDesc
    split
    · rename_i hle
      rw [List.pairwise_cons]
      refine ⟨?_, List.pairwise_cons.mpr h⟩
      intro z hz
      rcases List.mem_cons.mp hz with rfl | hzl
      · exact hle
      · exact le_trans (h.1 z hzl) hle
    · rename_i hlt
      push_neg at hlt
      rw [List.pairwise_cons]
      refine ⟨?_, ih h.2⟩
      intro z hz
      rcases (mem_insertByCountDesc z x l).mp hz with rfl | hzl
      · exact le_of_lt hlt
      · exact h.1 z hzl

theorem sortByCountDesc_pairwise (l : List (String × Nat)) :
    List.Pairwise (fun a b => b.2 ≤ a.2) (sortByCountDesc l) := by
  induction l with
  | nil => constructor
  | cons x l ih => exact pairwise_insertByCountDesc x _ ih

theorem filter_insertByCountDesc (k : Nat) (x : String × Nat) (l : List (String × Nat)) :
    (insertByCountDesc x l).filter (fun p => decide (p.2 = k)) =
      if x.2 = k then x :: l.filter (fun p => decide (p.2 = k))
      else l.filter (fun p => decide (p.2 = k)) := by
  induction l with
  | nil =>
    by_cases hx : x.2 = k <;> simp [insertByCountDesc, List.filter_cons, hx]
  | cons y l ih =>
    unfold insertByCountDesc
    split
    · rename_i hyx
      by_cases hx : x.2 = k <;> simp [List.filter_cons, hx]
    · rename_i hyx
      push_neg at hyx
      by_cases hx : x.2 = k
      · have hy : ¬ (y.2 = k) := by omega
        simp [List.filter_cons, hx, hy, ih]
      · by_cases hy : y.2 = k <;> simp [List.filter_cons, hx, hy, ih]

theorem filter_sortByCountDesc (k : Nat) (l : List (String × Nat)) :
    (sortByCountDesc l).filter (fun p => decide (p.2 = k)) =
      l.filter (fun p => decide (p.2 = k)) := by
  induction l with
  | nil => rfl
  | cons x l ih =>
    rw [sortByCountDesc, filter_insertByCountDesc]
    by_cases hx : x.2 = k <;> simp [List.filter_cons, hx, ih]

theorem filter_take_isPrefix (p : (String × Nat) → Bool) (n : Nat) (l : List (String × Nat)) :
    List.IsPrefix ((l.take n).filter p) (l.filter p) :=
  ⟨(l.drop n).filter p, by rw [← List.filter_append, List.take_append_drop]⟩

theorem triggerAlert_fired (errors : List ErrorEntry) (files : MonitorFiles) (now : Nat) :
    (triggerAlert errors files now).2 = dedupFingerprints errors := rfl

/-!
Claim theorems.
-/

/-- Claim C10: when any persisted file (event log, alert-record mapping, or
error configuration) is missing or unparseable, the load operations do not
fail: loading events returns the empty list, looking up a last-alert
timestamp returns an absent value, and loading configuration returns the
built-in defaults — so a corrupted file silently erases event history and
alert-deduplication history rather than surfacing an error to the
caller. -/
theorem claim_C10_lenient_loads (fp : String) :
    loadErrors .missing = [] ∧ loadErrors .unreadable = [] ∧
    getLastAlert .missing fp = none ∧ getLastAlert .unreadable fp = none ∧
    loadErrorConfig .missing = defaultErrorConfig ∧
    loadErrorConfig .unreadable = defaultErrorConfig :=
  ⟨rfl, rfl, rfl, rfl, rfl, rfl⟩

/-- Claim C7: after every mutating Event Store operation (`logError`,
`acknowledgeError`), the persisted event log contains at most the most
recent 1000 events (`saveErrors` is a suffix of its input of length
`min length 1000`, so the dropped events are exactly the oldest ones);
acknowledging rewrites one event in place and deletes none. -/
theorem claim_C7_bounded_retention (l : List ErrorEntry) (files : MonitorFiles)
    (err : ErrorInput) (errorId : String) (now : Nat) (idStr : String) :
    List.IsSuffix (saveErrors l) l ∧
    (saveErrors l).length = min l.length 1000 ∧
    (logError files err now idStr).1.errorsFile
      = FileState.stored (saveErrors (loadErrors files.errorsFile ++ [mkEntry err now idStr])) ∧
    (acknowledgeError files errorId now).1.errorsFile
      = (match (loadErrors files.errorsFile).find? (fun e => e.id = errorId) with
         | none => files.errorsFile
         | some _ => FileState.stored (saveErrors (ackFirst (loadErrors files.errorsFile) errorId now))) ∧
    (ackFirst l errorId now).length = l.length := by
  refine ⟨List.drop_suffix _ _, ?_, ?_, ?_, ackFirst_length l errorId now⟩
  · simp [saveErrors]
    omega
  · unfold logError
    rw [checkAlertThreshold_errorsFile]
  · unfold acknowledgeError
    dsimp only
    cases hfind : (loadErrors files.errorsFile).find? (fun e => decide (e.id = errorId)) <;> rfl

/-- Claim C3: for every pair of consecutive polls of the same target (a
stored previous failure count `p`), the build-failure condition is
reported as new iff the observed failed-build count is positive and
differs from `p`; an unchanged nonzero count produces nothing, a change
such as 3 to 7 does. -/
theorem claim_C3_build_failure_diff (cfg : DaemonConfig) (cc : Nat) (prev : RepoStateEntry)
    (fetch : RepoFetch) (now p : Nat) (snap : RepoSnapshot)
    (hp : prev.failedBuilds = some p) (hs : fetch.status = some snap) :
    Cond.buildFailure ∈ (checkRepo cfg cc (some prev) fetch now).conds ↔
      (0 < snap.failedBuilds ∧ snap.failedBuilds ≠ p) := by
  unfold checkRepo
  rw [hs]
  dsimp only [Option.getD_some]
  rcases depsStep_conds_eq cfg cc prev fetch with hd | hd <;>
    rcases releaseStep_conds_eq prev fetch with hr | hr <;>
      simp [hd, hr, hp, List.mem_append]

/-- Witness for C3: previous stored count 3, current count 7 — the
condition is reported. -/
theorem claim_C3_witness :
    ({ failedBuilds := some 3, pendingDepsPR := none, releaseNotified := false,
       lastCheck := some 0 } : RepoStateEntry).failedBuilds = some 3 ∧
    ({ status := some { failedBuilds := 7 }, failures := [], deps := [],
       prOutcome := .returnedNull, releaseNeeded := false } : RepoFetch).status
      = some { failedBuilds := 7 } ∧
    (Cond.buildFailure ∈
      (checkRepo { autoUpdateMinor := true, autoUpdatePatch := true } 1
        (some { failedBuilds := some 3, pendingDepsPR := none, releaseNotified := false,
                lastCheck := some 0 })
        { status := some { failedBuilds := 7 }, failures := [], deps := [],
          prOutcome := .returnedNull, releaseNeeded := false } 5).conds ↔
      (0 < 7 ∧ 7 ≠ 3)) :=
  ⟨rfl, rfl,
    claim_C3_build_failure_diff { autoUpdateMinor := true, autoUpdatePatch := true } 1
      { failedBuilds := some 3, pendingDepsPR := none, releaseNotified := false,
        lastCheck := some 0 }
      { status := some { failedBuilds := 7 }, failures := [], deps := [],
        prOutcome := .returnedNull, releaseNeeded := false } 5 3 { failedBuilds := 7 }
      rfl rfl⟩

/-- Claim C4: on the first poll of a target (no stored state), a nonzero
failed-build count and a true release-needed flag are each reported as new,
and an immediately repeated poll with an identical snapshot (and no
eligible dependency updates) reports no new conditions at all. -/
theorem claim_C4_first_poll (cfg : DaemonConfig) (cc cc2 : Nat) (c : Nat) (needed : Bool)
    (failures : List String) (po : PrOutcome) (now now2 : Nat) :
    (Cond.buildFailure ∈ (checkRepo cfg cc none
        { status := some { failedBuilds := c }, failures := failures, deps := [],
          prOutcome := po, releaseNeeded := needed } now).conds ↔ 0 < c) ∧
    (Cond.release ∈ (checkRepo cfg cc none
        { status := some { failedBuilds := c }, failures := failures, deps := [],
          prOutcome := po, releaseNeeded := needed } now).conds ↔ needed = true) ∧
    (checkRepo cfg cc2
        (checkRepo cfg cc none
          { status := some { failedBuilds := c }, failures := failures, deps := [],
            prOutcome := po, releaseNeeded := needed } now).state
        { status := some { failedBuilds := c }, failures := failures, deps := [],
          prOutcome := po, releaseNeeded := needed } now2).conds = [] := by
  cases needed <;> by_cases hc : 0 < c <;>
    simp [checkRepo, depsStep, releaseStep, emptyRepoState, jsTruthyNum, hc]

/-- Claim C8: at most one poll cycle executes at a time: a tick arriving
while `isRunning` is set performs no per-target work and leaves the state
unchanged, and a cycle entered with the flag clear always ends with the
flag clear again — for every choice of per-target fetch results, including
ones where every fetch throws — so a failed cycle never blocks future
cycles. -/
theorem claim_C8_single_cycle (cfg : DaemonConfig) (targets : List String)
    (fetches : String → RepoFetch) (now : Nat) (s : DaemonState) :
    (s.isRunning = true → runCheck cfg targets fetches now s = (s, [])) ∧
    (s.isRunning = false → (runCheck cfg targets fetches now s).1.isRunning = false) := by
  constructor
  · intro h
    unfold runCheck
    rw [h]
    rfl
  · intro h
    unfold runCheck
    rw [h]
    rfl

/-- Witness for C8: a busy tick is a no-op, and a cycle whose only target's
fetch throws still ends with the flag clear. -/
theorem claim_C8_witness :
    (runCheck { autoUpdateMinor := true, autoUpdatePatch := true } ["octo/repo"]
        (fun _ => { status := none, failures := [], deps := [], prOutcome := .threw,
                    releaseNeeded := false }) 0
        { isRunning := true, checkCount := 2, repoState := [] }
      = ({ isRunning := true, checkCount := 2, repoState := [] }, [])) ∧
    ((runCheck { autoUpdateMinor := true, autoUpdatePatch := true } ["octo/repo"]
        (fun _ => { status := none, failures := [], deps := [], prOutcome := .threw,
                    releaseNeeded := false }) 0
        { isRunning := false, checkCount := 2, repoState := [] }).1.isRunning = false) :=
  ⟨(claim_C8_single_cycle { autoUpdateMinor := true, autoUpdatePatch := true } ["octo/repo"]
      (fun _ => { status := none, failures := [], deps := [], prOutcome := .threw,
                  releaseNeeded := false }) 0
      { isRunning := true, checkCount := 2, repoState := [] }).1 rfl,
   (claim_C8_single_cycle { autoUpdateMinor := true, autoUpdatePatch := true } ["octo/repo"]
      (fun _ => { status := none, failures := [], deps := [], prOutcome := .threw,
                  releaseNeeded := false }) 0
      { isRunning := false, checkCount := 2, repoState := [] }).2 rfl⟩

/-- A `logError` input with source "a" (fingerprint differs from
`silenceInputB`'s). -/
def silenceInputA : ErrorInput :=
  { severity := "error", source := "a", message := "m", stack := none, context := [] }

/-- A `logError` input with source "b". -/
def silenceInputB : ErrorInput :=
  { severity := "error", source := "b", message := "m", stack := none, context := [] }

/-- A stored config file setting `alertThreshold` to 1, every other option
defaulted. -/
def silenceConfigFile : ErrorConfigPartial :=
  { sources := none, alertThreshold := some 1, windowMinutes := none, silenceMinutes := none,
    severityFilter := none, slackWebhook := none, emailRecipients := none }

/-- Fresh data directory apart from the config file. -/
def silenceFiles0 : MonitorFiles :=
  { errorsFile := .missing, alertsFile := .missing, configFile := .stored silenceConfigFile }

/-- Counterexample to claim C1: with `alertThreshold = 1` and the default
`silenceMinutes = 15`, logging an event of fingerprint A at time 0 fires an
alert for A (recorded at 0); logging an event of a different fingerprint B
one minute later — well inside A's silence period — fires alerts for both
window fingerprints, A included.  The silence period is only consulted for
the fingerprint of the event that triggered the evaluation, so an alert
for A fires twice within `silenceMinutes`. -/
theorem claim_C1_counterexample :
    generateFingerprint silenceInputA ∈ (logError silenceFiles0 silenceInputA 0 "id1").2.2 ∧
    getLastAlert (logError silenceFiles0 silenceInputA 0 "id1").1.alertsFile
      (generateFingerprint silenceInputA) = some 0 ∧
    generateFingerprint silenceInputA ∈
      (logError (logError silenceFiles0 silenceInputA 0 "id1").1 silenceInputB 60000 "id2").2.2 ∧
    generateFingerprint silenceInputA ≠ generateFingerprint silenceInputB ∧
    60000 - 0 ≤ (loadErrorConfig silenceFiles0.configFile).silenceMinutes * 60 * 1000 := by
  set_option maxRecDepth 10000 in decide

/-- Claim C1 (amended): the silence period is consulted only for the
fingerprint of the event that triggered the evaluation.  Once an alert has
been recorded for fingerprint F at time t, a `logError` call whose event
has fingerprint F at any time within `silenceMinutes` of t fires no alert
at all and leaves the alert records unchanged; alerts for F may still be
re-fired within the period by an evaluation triggered by an event of a
different fingerprint (as the counterexample shows). -/
theorem claim_C1_amended (files : MonitorFiles) (err : ErrorInput) (now : Nat) (idStr : String)
    (t : Nat)
    (h1 : getLastAlert files.alertsFile (generateFingerprint err) = some t)
    (h2 : now - t ≤ (loadErrorConfig files.configFile).silenceMinutes * 60 * 1000) :
    (logError files err now idStr).2.2 = [] ∧
    (logError files err now idStr).1.alertsFile = files.alertsFile := by
  unfold logError checkAlertThreshold
  dsimp only
  simp only [mkEntry]
  rw [h1]
  have h3 : ¬ ((loadErrorConfig files.configFile).silenceMinutes * 60 * 1000 < now - t) := by
    omega
  split
  · dsimp only
    rw [if_neg h3]
    exact ⟨rfl, rfl⟩
  · exact ⟨rfl, rfl⟩

/-- Witness for the amended C1: with an alert for A recorded at time 0 and
default config, logging A again at time 1000 fires nothing and leaves the
records untouched. -/
theorem claim_C1_witness :
    getLastAlert (FileState.stored [(generateFingerprint silenceInputA, 0)])
      (generateFingerprint silenceInputA) = some 0 ∧
    1000 - 0 ≤ (loadErrorConfig (.missing : FileState ErrorConfigPartial)).silenceMinutes * 60 * 1000 ∧
    ((logError { errorsFile := .missing,
                 alertsFile := .stored [(generateFingerprint silenceInputA, 0)],
                 configFile := .missing } silenceInputA 1000 "id3").2.2 = [] ∧
     (logError { errorsFile := .missing,
                 alertsFile := .stored [(generateFingerprint silenceInputA, 0)],
                 configFile := .missing } silenceInputA 1000 "id3").1.alertsFile
       = .stored [(generateFingerprint silenceInputA, 0)]) :=
  ⟨by set_option maxRecDepth 10000 in decide, by decide,
    claim_C1_amended
      { errorsFile := .missing,
        alertsFile := .stored [(generateFingerprint silenceInputA, 0)],
        configFile := .missing } silenceInputA 1000 "id3" 0
      (by set_option maxRecDepth 10000 in decide) (by decide)⟩

/-- A stored in-window event with its own distinct fingerprint. -/
def thresholdEntry (i : Nat) : ErrorEntry :=
  { id := toString i, timestamp := i, severity := "error", source := "s", message := "m",
    stack := none, context := [], fingerprint := "f" ++ toString i, acknowledged := false,
    acknowledgedAt := none }

/-- Nine stored events with nine distinct fingerprints, default config. -/
def thresholdFiles0 : MonitorFiles :=
  { errorsFile := .stored ((List.range 9).map thresholdEntry), alertsFile := .missing,
    configFile := .missing }

/-- The tenth event, with a tenth distinct fingerprint. -/
def thresholdInput9 : ErrorInput :=
  { severity := "error", source := "s9", message := "m9", stack := none, context := [] }

/-- Counterexample to claim C2: with the default `alertThreshold = 10`,
logging a tenth in-window event whose ten window-mates all carry distinct
fingerprints fires an alert for fingerprint "f0", although only one event
(far below the threshold) carries "f0".  The gate compares the threshold
against the total filtered window count, not the per-fingerprint count. -/
theorem claim_C2_counterexample :
    "f0" ∈ (logError thresholdFiles0 thresholdInput9 9 "e9").2.2 ∧
    ((loadErrors (logError thresholdFiles0 thresholdInput9 9 "e9").1.errorsFile).countP
      (fun e => e.fingerprint == "f0")) = 1 ∧
    (loadErrorConfig thresholdFiles0.configFile).alertThreshold = 10 := by
  set_option maxRecDepth 10000 in decide

/-- Claim C2 (amended): the Alert Gate fires exactly when the *total*
number of filtered events inside the trailing window reaches
`alertThreshold` and the *triggering event's* fingerprint either has no
last-alert record or is past its silence period; when it fires, it fires
for every fingerprint present in the filtered window, not only those
meeting the threshold on their own. -/
theorem claim_C2_amended (files : MonitorFiles) (e : ErrorEntry) (now : Nat) (F : String) :
    F ∈ (checkAlertThreshold files e now).2 ↔
      ((loadErrorConfig files.configFile).alertThreshold ≤
        ((loadErrors files.errorsFile).filter fun x =>
          decide (now - (loadErrorConfig files.configFile).windowMinutes * 60 * 1000 ≤ x.timestamp) &&
          (loadErrorConfig files.configFile).severityFilter.contains x.severity).length) ∧
      (getLastAlert files.alertsFile e.fingerprint = none ∨
        (∃ t, getLastAlert files.alertsFile e.fingerprint = some t ∧
          (loadErrorConfig files.configFile).silenceMinutes * 60 * 1000 < now - t)) ∧
      F ∈ (((loadErrors files.errorsFile).filter fun x =>
          decide (now - (loadErrorConfig files.configFile).windowMinutes * 60 * 1000 ≤ x.timestamp) &&
          (loadErrorConfig files.configFile).severityFilter.contains x.severity).map
        (fun x => x.fingerprint)) := by
  unfold checkAlertThreshold
  dsimp only
  split
  · rename_i hth
    cases hga : getLastAlert files.alertsFile e.fingerprint with
    | none =>
      dsimp only
      rw [triggerAlert_fired, mem_dedupFingerprints]
      constructor
      · intro hF
        exact ⟨hth, Or.inl rfl, hF⟩
      · intro h
        exact h.2.2
    | some t =>
      dsimp only
      split
      · rename_i hsil
        rw [triggerAlert_fired, mem_dedupFingerprints]
        constructor
        · intro hF
          exact ⟨hth, Or.inr ⟨t, rfl, hsil⟩, hF⟩
        · intro h
          exact h.2.2
      · rename_i hsil
        constructor
        · intro hF
          exact absurd hF (List.not_mem_nil F)
        · rintro ⟨-, hok, -⟩
          rcases hok with hnone | ⟨t2, ht2, hlt⟩
          · exact Option.noConfusion hnone
          · cases ht2
            exact absurd hlt hsil
  · rename_i hth
    constructor
    · intro hF
      exact absurd hF (List.not_mem_nil F)
    · rintro ⟨hth2, -, -⟩
      exact absurd hth2 hth

/-- Daemon config with both auto-update types enabled (the shipped
defaults). -/
def depsDaemonCfg : DaemonConfig := { autoUpdateMinor := true, autoUpdatePatch := true }

/-- A fetch with one auto-eligible minor update and the given PR outcome. -/
def depsFetch (po : PrOutcome) : RepoFetch :=
  { status := some { failedBuilds := 0 }, failures := [],
    deps := [{ name := "pkg", updateType := "minor" }], prOutcome := po, releaseNeeded := false }

/-- Counterexample to claim C5: on check 4 a dependency-update PR #5 is
opened, but `notifyDependencyUpdate` throws before `pendingDepsPR` is
assigned, so the inner catch leaves the field unset; the cycle still
completes and stores the state.  On check 8, with the same eligible
updates and no clearing operation invoked in between (none exists), a
second PR #6 is opened. -/
theorem claim_C5_counterexample :
    (checkRepo depsDaemonCfg 4 none (depsFetch (.opened 5 false)) 100).openedPR = some 5 ∧
    (checkRepo depsDaemonCfg 4 none (depsFetch (.opened 5 false)) 100).state
      = some { failedBuilds := some 0, pendingDepsPR := none, releaseNotified := false,
               lastCheck := some 100 } ∧
    (checkRepo depsDaemonCfg 8
        (checkRepo depsDaemonCfg 4 none (depsFetch (.opened 5 false)) 100).state
        (depsFetch (.opened 6 true)) 200).openedPR = some 6 := by
  decide

/-- Claim C5 (amended): `pendingDepsPR` is set to the PR's number only when
the PR was opened *and* its notification dispatch succeeded; whenever the
stored field holds a nonzero PR number, no later cycle opens another PR
and the field is preserved unchanged — and no operation of the daemon ever
clears it.  When notification dispatch throws after the PR is opened, the
field stays unset and a later cycle can open a duplicate PR (the
counterexample). -/
theorem claim_C5_amended (cfg : DaemonConfig) (cc : Nat) (prev : RepoStateEntry)
    (fetch : RepoFetch) (now n : Nat) :
    (prev.pendingDepsPR = some n → n ≠ 0 →
      ((checkRepo cfg cc (some prev) fetch now).openedPR = none ∧
       ∀ e, (checkRepo cfg cc (some prev) fetch now).state = some e →
         e.pendingDepsPR = some n)) ∧
    (fetch.prOutcome = .opened n true →
      (checkRepo cfg cc (some prev) fetch now).openedPR = some n →
      ∀ e, (checkRepo cfg cc (some prev) fetch now).state = some e →
        e.pendingDepsPR = some n) := by
  constructor
  · intro hp hn
    have htr : jsTruthyNum prev.pendingDepsPR = true := by
      rw [hp]
      simpa [jsTruthyNum] using hn
    unfold checkRepo
    cases hs : fetch.status with
    | none =>
      refine ⟨rfl, ?_⟩
      intro e he
      cases he
      exact hp
    | some snap =>
      dsimp only [Option.getD_some]
      rw [depsStep_of_truthy cfg cc prev fetch htr]
      refine ⟨rfl, ?_⟩
      intro e he
      cases he
      exact hp
  · intro hpo hopen e he
    unfold checkRepo at hopen he
    cases hs : fetch.status with
    | none =>
      rw [hs] at hopen
      exact Option.noConfusion hopen
    | some snap =>
      rw [hs] at hopen he
      dsimp only [Option.getD_some] at hopen he
      cases he
      rcases depsStep_cases cfg cc prev fetch with hd | ⟨m, hm, hd⟩ | ⟨m, hm, hd⟩
      · rw [hd] at hopen
        exact Option.noConfusion hopen
      · rw [hpo] at hm
        cases hm
        rw [hd]
      · rw [hpo] at hm
        cases hm

/-- A stored entry whose pending-PR field holds PR 7. -/
def prevPending7 : RepoStateEntry :=
  { failedBuilds := some 0, pendingDepsPR := some 7, releaseNotified := false, lastCheck := none }

/-- A stored entry with no pending PR. -/
def prevNoPending : RepoStateEntry :=
  { failedBuilds := none, pendingDepsPR := none, releaseNotified := false, lastCheck := none }

/-- Witness for the amended C5: with PR 7 pending, a cycle with eligible
updates opens nothing and keeps the field; with no PR pending, a cycle
that opens PR 9 and notifies successfully stores `pendingDepsPR = 9`. -/
theorem claim_C5_witness :
    prevPending7.pendingDepsPR = some 7 ∧ (7 : Nat) ≠ 0 ∧
    (checkRepo depsDaemonCfg 4 (some prevPending7) (depsFetch (.opened 9 true)) 0).openedPR
      = none ∧
    ({ failedBuilds := some 0, pendingDepsPR := some 7, releaseNotified := false,
       lastCheck := some 0 } : RepoStateEntry).pendingDepsPR = some 7 ∧
    (depsFetch (.opened 9 true)).prOutcome = .opened 9 true ∧
    ({ failedBuilds := some 0, pendingDepsPR := some 9, releaseNotified := false,
       lastCheck := some 0 } : RepoStateEntry).pendingDepsPR = some 9 :=
  ⟨rfl, by decide,
   ((claim_C5_amended depsDaemonCfg 4 prevPending7 (depsFetch (.opened 9 true)) 0 7).1
      rfl (by decide)).1,
   ((claim_C5_amended depsDaemonCfg 4 prevPending7 (depsFetch (.opened 9 true)) 0 7).1
      rfl (by decide)).2
     { failedBuilds := some 0, pendingDepsPR := some 7, releaseNotified := false,
       lastCheck := some 0 } (by decide),
   rfl,
   (claim_C5_amended depsDaemonCfg 4 prevNoPending (depsFetch (.opened 9 true)) 0 9).2
     rfl (by decide)
     { failedBuilds := some 0, pendingDepsPR := some 9, releaseNotified := false,
       lastCheck := some 0 } (by decide)⟩

/-- A fetch observing `n` failed builds, no dependency updates and no
release need. -/
def buildFetchN (n : Nat) : RepoFetch :=
  { status := some { failedBuilds := n }, failures := [], deps := [], prOutcome := .returnedNull,
    releaseNeeded := false }

/-- Counterexample to claim C6: the daemon's per-target map is never
written to disk, so rebuilding after a restart cannot reproduce the
uninterrupted run.  Concretely: after one cycle observing 3 failed builds,
the uninterrupted second cycle with the identical snapshot reports nothing
new, while a second cycle after a process restart (fresh in-memory state)
reports the build failure again. -/
theorem claim_C6_counterexample :
    ((runCheck depsDaemonCfg ["octo/lib"] (fun _ => buildFetchN 3) 10
        (runCheck depsDaemonCfg ["octo/lib"] (fun _ => buildFetchN 3) 0 initDaemonState).1).2.map
      (fun p => p.2.conds)) = [[]] ∧
    ((runCheck depsDaemonCfg ["octo/lib"] (fun _ => buildFetchN 3) 10
        (daemonRestart
          (runCheck depsDaemonCfg ["octo/lib"] (fun _ => buildFetchN 3) 0
            initDaemonState).1)).2.map
      (fun p => p.2.conds)) = [[Cond.buildFailure]] := by
  decide

/-- Claim C6 (amended): the alert-record mapping is written to its file on
every update, and the error monitor's behaviour is a function of its
persisted files alone, so it survives a restart; the per-target state map,
however, lives only in daemon process memory — a cycle on the stored state
re-reports nothing for an unchanged nonzero failure count, while the same
cycle on the post-restart empty state re-reports the build failure. -/
theorem claim_C6_amended (files : MonitorFiles) (fp : String) (err : ErrorInput)
    (now : Nat) (idStr : String) (n : Nat) (hn : 0 < n) (st : RepoStateEntry)
    (hst : st.failedBuilds = some n) (cfg : DaemonConfig) (cc cc2 now1 now2 : Nat) :
    (recordAlert files fp now).alertsFile
      = FileState.stored (setAlert (loadAlertsRaw files.alertsFile) fp now) ∧
    logError (monitorRestart files) err now idStr = logError files err now idStr ∧
    (checkRepo cfg cc (some st) (buildFetchN n) now1).conds = [] ∧
    (checkRepo cfg cc2 none (buildFetchN n) now2).conds = [Cond.buildFailure] := by
  refine ⟨rfl, rfl, ?_, ?_⟩
  · simp [checkRepo, buildFetchN, depsStep, releaseStep, hst]
  · simp [checkRepo, buildFetchN, depsStep, releaseStep, emptyRepoState, hn]

/-- Witness for the amended C6 at `n = 3`. -/
theorem claim_C6_witness :
    (0 : Nat) < 3 ∧
    ({ failedBuilds := some 3, pendingDepsPR := none, releaseNotified := false,
       lastCheck := some 0 } : RepoStateEntry).failedBuilds = some 3 ∧
    ((recordAlert { errorsFile := .missing, alertsFile := .missing, configFile := .missing }
        "fpX" 5).alertsFile = FileState.stored (setAlert [] "fpX" 5) ∧
     logError (monitorRestart
         { errorsFile := .missing, alertsFile := .missing, configFile := .missing })
         silenceInputA 5 "w" =
       logError { errorsFile := .missing, alertsFile := .missing, configFile := .missing }
         silenceInputA 5 "w" ∧
     (checkRepo depsDaemonCfg 1
        (some { failedBuilds := some 3, pendingDepsPR := none, releaseNotified := false,
                lastCheck := some 0 }) (buildFetchN 3) 10).conds = [] ∧
     (checkRepo depsDaemonCfg 1 none (buildFetchN 3) 10).conds = [Cond.buildFailure]) :=
  ⟨by decide, rfl,
   claim_C6_amended { errorsFile := .missing, alertsFile := .missing, configFile := .missing }
     "fpX" silenceInputA 5 "w" 3 (by decide)
     { failedBuilds := some 3, pendingDepsPR := none, releaseNotified := false,
       lastCheck := some 0 } rfl depsDaemonCfg 1 1 10 10⟩

/-- The timestamp of the most recent event carrying a fingerprint (0 when
none does); states the spec's intended tie-breaking key. -/
def latestTimestamp (es : List ErrorEntry) (fp : String) : Nat :=
  ((es.filter fun e => e.fingerprint = fp).map (fun e => e.timestamp)).foldr max 0

/-- Events: fingerprint fpA at times 1000 and 2000, fpB at 3000 and 4000. -/
def tieEvA1 : ErrorEntry :=
  { id := "1", timestamp := 1000, severity := "error", source := "s", message := "m",
    stack := none, context := [], fingerprint := "fpA", acknowledged := false,
    acknowledgedAt := none }

def tieEvA2 : ErrorEntry := { tieEvA1 with id := "2", timestamp := 2000 }

def tieEvB1 : ErrorEntry := { tieEvA1 with id := "3", timestamp := 3000, fingerprint := "fpB" }

def tieEvB2 : ErrorEntry := { tieEvA1 with id := "4", timestamp := 4000, fingerprint := "fpB" }

/-- Counterexample to claim C9: fpA and fpB both count 2, fpB's most
recent event (4000) is later than fpA's (2000), yet the summary lists fpA
first: the stable sort keeps first-occurrence order on ties, it does not
place the fingerprint with the most recent event first. -/
theorem claim_C9_counterexample :
    ((getErrorSummary [tieEvA1, tieEvA2, tieEvB1, tieEvB2] 5000 24 none none).topErrors.map
      (fun t => (t.fingerprint, t.count))) = [("fpA", 2), ("fpB", 2)] ∧
    latestTimestamp [tieEvA1, tieEvA2, tieEvB1, tieEvB2] "fpB" = 4000 ∧
    latestTimestamp [tieEvA1, tieEvA2, tieEvB1, tieEvB2] "fpA" = 2000 := by
  decide

/-- Claim C9 (amended): for every list of events, `topErrors` has at most 5
entries and is sorted by per-fingerprint count in descending order; ties
between equal counts keep the order of `fingerprintCounts` — the order in
which the fingerprints first occur in the filtered event list — not
most-recent-event-first. -/
theorem claim_C9_amended (errors : List ErrorEntry) (now hours : Nat)
    (severity source : Option String) :
    (getErrorSummary errors now hours severity source).topErrors.length ≤ 5 ∧
    List.Pairwise (fun a b => b.count ≤ a.count)
      (getErrorSummary errors now hours severity source).topErrors ∧
    ∀ k, List.IsPrefix
      (((getErrorSummary errors now hours severity source).topErrors.map
        (fun t => (t.fingerprint, t.count))).filter (fun p => decide (p.2 = k)))
      ((fingerprintCounts (summaryFiltered errors now hours severity source)).filter
        (fun p => decide (p.2 = k))) := by
  have hTop : (getErrorSummary errors now hours severity source).topErrors
      = ((sortByCountDesc
            (fingerprintCounts (summaryFiltered errors now hours severity source))).take 5).map
        (fun p => { fingerprint := p.1, count := p.2,
                    sample := (summaryFiltered errors now hours severity source).find?
                      (fun e => e.fingerprint = p.1) }) := rfl
  refine ⟨?_, ?_, ?_⟩
  · rw [hTop]
    simp
  · rw [hTop, List.pairwise_map]
    exact List.Pairwise.sublist (List.take_sublist _ _) (sortByCountDesc_pairwise _)
  · intro k
    rw [hTop, List.map_map]
    have hfun : ((fun t : TopError => (t.fingerprint, t.count)) ∘
        (fun p : String × Nat =>
          ({ fingerprint := p.1, count := p.2,
             sample := (summaryFiltered errors now hours severity source).find?
               (fun e => e.fingerprint = p.1) } : TopError))) = id := by
      funext p
      rfl
    rw [hfun, List.map_id]
    have h1 := filter_take_isPrefix (fun p => decide (p.2 = k)) 5
      (sortByCountDesc (fingerprintCounts (summaryFiltered errors now hours severity source)))
    rw [filter_sortByCountDesc] at h1
    exact h1
